import Mathlib

/-!
Verification of the medallion EHR pipeline (backend/app/medallion_pipeline.py).

The pipeline has three stages: bronze (raw document), silver (regex-based
clinical entity extraction with per-entity metadata), and gold (aggregation of
entities plus demographics into a patient profile with a business-value score).

Text is modelled as `List Char` (Python `str`); `str.lower` is modelled on the
ASCII range; `\s` and `\d` are modelled as the ASCII whitespace and digit
classes; Python floats are modelled exactly as rationals (`ℚ`), with decimal
literals parsed to their exact rational value.
-/

namespace Medallion

/-! ### Character-level helpers (models of Python `str` primitives) -/

/-- ASCII model of Python `str.lower` on a single character. -/
def lowerChar (c : Char) : Char :=
  if h : 65 ≤ c.toNat ∧ c.toNat ≤ 90 then
    Char.ofNatAux (c.toNat + 32) (Or.inl (by omega))
  else c

/-- Model of Python `str.lower`. -/
def lowerStr (cs : List Char) : List Char := cs.map lowerChar

/-- ASCII model of the regex class `\s` (Python whitespace). -/
def isWS (c : Char) : Bool :=
  c == ' ' || c == '\t' || c == '\n' || c == '\r' || c == '\x0b' || c == '\x0c'

/-- The regex class `\d` (ASCII digits). -/
def isDigitCh (c : Char) : Bool := 48 ≤ c.toNat && c.toNat ≤ 57

/-- Is `c` an ASCII uppercase letter? -/
def isUpperCh (c : Char) : Bool := 65 ≤ c.toNat && c.toNat ≤ 90

/-- Length of the longest run of characters satisfying `p` at the front. -/
def countWhile (p : Char → Bool) (cs : List Char) : Nat := (cs.takeWhile p).length

/-- Does `pat` occur literally at the start of `cs`? -/
def leadsWith : List Char → List Char → Bool
  | [], _ => true
  | _ :: _, [] => false
  | a :: as, b :: bs => a == b && leadsWith as bs

/-- Model of the Python substring test `needle in hay`. -/
def containsSub (needle : List Char) : List Char → Bool
  | [] => leadsWith needle []
  | c :: cs => leadsWith needle (c :: cs) || containsSub needle cs

/-- Model of Python `str.strip()` (drop leading and trailing whitespace). -/
def pstrip (cs : List Char) : List Char :=
  ((cs.dropWhile isWS).reverse.dropWhile isWS).reverse

/-- Numeric value of a digit string. -/
def natOfDigits (ds : List Char) : Nat := ds.foldl (fun a c => a * 10 + (c.toNat - 48)) 0

/-- Exact rational value of the decimal literal `d1 ++ "." ++ d2`
(the value Python's `float` parses from a `\d+\.?\d*` match). -/
def decimalValue (d1 d2 : List Char) : ℚ :=
  mkRat (natOfDigits d1 * 10 ^ d2.length + natOfDigits d2) (10 ^ d2.length)

/-- Model of `re.search(r"(\d+\.?\d*)", s)` followed by `float(...)`:
the value of the leftmost maximal decimal token, `none` when `s` has no digit. -/
def searchFloat : List Char → Option ℚ
  | [] => none
  | c :: cs =>
    if isDigitCh c then
      let d1 := (c :: cs).takeWhile isDigitCh
      let rest := (c :: cs).drop d1.length
      let d2 := match rest with
        | '.' :: rest2 => rest2.takeWhile isDigitCh
        | _ => []
      some (decimalValue d1 d2)
    else searchFloat cs

/-- Model of `re.search(r"(\d+)", s)` followed by `float(...)`:
the value of the leftmost maximal digit run, `none` when `s` has no digit. -/
def searchIntFloat : List Char → Option ℚ
  | [] => none
  | c :: cs =>
    if isDigitCh c then some ((natOfDigits ((c :: cs).takeWhile isDigitCh) : ℚ))
    else searchIntFloat cs

/-! ### Silver layer: clinical entities (class SilverClinicalEntity) -/

/-- `SilverClinicalEntity` dataclass. `temporal_info` is a `Dict` in the
source; only its truthiness is ever consulted, so it is modelled as `Bool`. -/
structure SilverClinicalEntity where
  entity_type : String
  entity_value : String
  confidence_score : ℚ
  extracted_from : String
  normalized_code : Option String
  temporal_info : Bool
deriving Repr, DecidableEq

/-! ### Code tables (`_get_rxnorm_code`, `_get_loinc_code`) -/

/-- `MedallionTransformer._get_rxnorm_code` (keys are lowercase names). -/
def get_rxnorm_code (medication : List Char) : Option String :=
  if medication == "metformin".data then some "6809"
  else if medication == "lisinopril".data then some "29046"
  else if medication == "atorvastatin".data then some "83367"
  else if medication == "amlodipine".data then some "17767"
  else none

/-- `MedallionTransformer._get_loinc_code`. -/
def get_loinc_code (lab_name : String) : Option String :=
  if lab_name == "hemoglobin_a1c" then some "4548-4"
  else if lab_name == "glucose" then some "2345-7"
  else if lab_name == "creatinine" then some "2160-0"
  else if lab_name == "egfr" then some "33914-3"
  else none

/-! ### Medication rules: regex `(<name>)\s+(\d+\s*mg)?` -/

/-- The seven medication names of `med_patterns`, in declaration order. -/
def medNames : List (List Char) :=
  ["metformin".data, "lisinopril".data, "atorvastatin".data, "amlodipine".data,
   "glipizide".data, "losartan".data, "semaglutide".data]

/-- Result of matching `(<name>)\s+(\d+\s*mg)?` at a fixed position:
`ws` is the length matched by `\s+`, `dos` the length matched by the optional
dosage group `(\d+\s*mg)` when it participates. -/
structure MedMatch where
  ws : Nat
  dos : Option Nat
deriving Repr, DecidableEq

/-- Match the pattern `(<name>)\s+(\d+\s*mg)?` at the start of `cs`
(Python greedy semantics; no backtracking can change the outcome because each
following atom starts with a character class disjoint from the previous one). -/
def matchMedAt (name : List Char) (cs : List Char) : Option MedMatch :=
  if leadsWith name cs then
    let r1 := cs.drop name.length
    let w := countWhile isWS r1
    if w == 0 then none
    else
      let r2 := r1.drop w
      let d := countWhile isDigitCh r2
      if d == 0 then some ⟨w, none⟩
      else
        let r3 := r2.drop d
        let w2 := countWhile isWS r3
        if leadsWith "mg".data (r3.drop w2) then some ⟨w, some (d + w2 + 2)⟩
        else some ⟨w, none⟩
  else none

/-- Whole-match length of a medication match. -/
def medTotal (name : List Char) (m : MedMatch) : Nat :=
  name.length + m.ws + m.dos.getD 0

/-- Entity built for one medication match (`_extract_medications` loop body):
`entity_value` is `f"{name} {dosage}".strip()` when the dosage group matched,
else the bare name; `extracted_from` is `match.group(0)`. -/
def medMatcher (name : List Char) (cs : List Char) : Option (Nat × SilverClinicalEntity) :=
  match matchMedAt name cs with
  | none => none
  | some m =>
    let total := medTotal name m
    let value : List Char :=
      match m.dos with
      | none => name
      | some dl => pstrip (name ++ ' ' :: ((cs.drop (name.length + m.ws)).take dl))
    some (total,
      { entity_type := "medication"
        entity_value := String.mk value
        confidence_score := mkRat 9 10
        extracted_from := String.mk (cs.take total)
        normalized_code := get_rxnorm_code name
        temporal_info := false })

/-! ### Diagnosis rules: literal synonym patterns with `\s+` separators -/

/-- One `diagnosis_patterns` row: pattern words, ICD-10 code, canonical name. -/
structure DiagRule where
  words : List (List Char)
  icd10 : String
  standard_name : String
deriving Repr, DecidableEq

/-- The five diagnosis rules, in declaration order. -/
def diagRules : List DiagRule :=
  [⟨["type".data, "2".data, "diabetes".data], "E11.9", "Type 2 Diabetes"⟩,
   ⟨["hypertension".data], "I10", "Essential Hypertension"⟩,
   ⟨["hyperlipidemia".data], "E78.5", "Hyperlipidemia"⟩,
   ⟨["chronic".data, "kidney".data, "disease".data], "N18.3", "Chronic kidney disease"⟩,
   ⟨["obesity".data], "E66.9", "Obesity"⟩]

/-- Match a sequence of literal words separated by `\s+` at the start of `cs`,
returning the matched length. -/
def matchWordsAt : List (List Char) → List Char → Option Nat
  | [], _ => some 0
  | w :: ws, cs =>
    if leadsWith w cs then
      match ws with
      | [] => some w.length
      | _ :: _ =>
        let r := cs.drop w.length
        let k := countWhile isWS r
        if k == 0 then none
        else (matchWordsAt ws (r.drop k)).map (fun n => w.length + k + n)
    else none

/-- Entity built for one diagnosis match (`_extract_diagnoses` loop body):
`entity_value` is the fixed canonical name, the code the fixed ICD-10 code. -/
def diagMatcher (r : DiagRule) (cs : List Char) : Option (Nat × SilverClinicalEntity) :=
  match matchWordsAt r.words cs with
  | none => none
  | some n =>
    some (n,
      { entity_type := "diagnosis"
        entity_value := r.standard_name
        confidence_score := mkRat 95 100
        extracted_from := String.mk (cs.take n)
        normalized_code := some r.icd10
        temporal_info := false })

/-! ### Lab-value rules: regex `<label>:?\s*(<number group>)<trailer>` -/

/-- One `lab_patterns` row. `hasDot` is true when the capture group is
`(\d+\.?\d*)` rather than `(\d+)`; `trailing` is the part after the group
(`\s*%`, `\s*mg/dl`, or nothing). -/
structure LabRule where
  label : List Char
  hasDot : Bool
  trailing : Option (List Char)
  lab_name : String
deriving Repr, DecidableEq

/-- The six lab rules, in declaration order. -/
def labRules : List LabRule :=
  [⟨"a1c".data, true, some "%".data, "hemoglobin_a1c"⟩,
   ⟨"glucose".data, false, some "mg/dl".data, "glucose"⟩,
   ⟨"creatinine".data, true, some "mg/dl".data, "creatinine"⟩,
   ⟨"egfr".data, false, none, "egfr"⟩,
   ⟨"ldl".data, false, none, "ldl_cholesterol"⟩,
   ⟨"hdl".data, false, none, "hdl_cholesterol"⟩]

/-- Spans of a lab match at a fixed position: whole length, and the offset and
length of the captured number group. -/
structure LabMatch where
  total : Nat
  numStart : Nat
  numLen : Nat
deriving Repr, DecidableEq

/-- Match `<label>:?\s*(<group>)[<\s*trailer>]` at the start of `cs`
(Python greedy semantics, which no backtracking can improve here). -/
def matchLabAt (r : LabRule) (cs : List Char) : Option LabMatch :=
  if leadsWith r.label cs then
    let r1 := cs.drop r.label.length
    let colon : Nat := match r1 with
      | ':' :: _ => 1
      | _ => 0
    let r2 := r1.drop colon
    let w := countWhile isWS r2
    let r3 := r2.drop w
    let d1 := countWhile isDigitCh r3
    if d1 == 0 then none
    else
      let r4 := r3.drop d1
      let numLen : Nat :=
        if r.hasDot then
          match r4 with
          | '.' :: r5 => d1 + 1 + countWhile isDigitCh r5
          | _ => d1
        else d1
      let numStart := r.label.length + colon + w
      match r.trailing with
      | none => some ⟨numStart + numLen, numStart, numLen⟩
      | some sfx =>
        let afterNum := cs.drop (numStart + numLen)
        let w2 := countWhile isWS afterNum
        if leadsWith sfx (afterNum.drop w2) then
          some ⟨numStart + numLen + w2 + sfx.length, numStart, numLen⟩
        else none
  else none

/-- Entity built for one lab match (`_extract_lab_values` loop body):
`entity_value` is `f"{lab_name}: {value}"` with `value = match.group(1)`. -/
def labMatcher (r : LabRule) (cs : List Char) : Option (Nat × SilverClinicalEntity) :=
  match matchLabAt r cs with
  | none => none
  | some m =>
    let numStr := (cs.drop m.numStart).take m.numLen
    some (m.total,
      { entity_type := "lab_value"
        entity_value := String.mk (r.lab_name.data ++ ':' :: ' ' :: numStr)
        confidence_score := mkRat 85 100
        extracted_from := String.mk (cs.take m.total)
        normalized_code := get_loinc_code r.lab_name
        temporal_info := false })

/-! ### `re.finditer` scanning -/

/-- One left-to-right non-overlapping scan of `re.finditer`: at each position
try the position matcher; on a match of length `n` emit its entity and resume
after the match, else advance one character. `fuel` bounds the recursion; every
match here has positive length, so `fuel = cs.length` is always enough. -/
def scanGo (m : List Char → Option (Nat × SilverClinicalEntity)) :
    Nat → List Char → List SilverClinicalEntity
  | 0, _ => []
  | _ + 1, [] => []
  | fuel + 1, c :: cs =>
    match m (c :: cs) with
    | none => scanGo m fuel cs
    | some (n, e) => e :: scanGo m fuel (cs.drop (n - 1))

/-- All matches of one rule over `cs`, in match order. -/
def scanWith (m : List Char → Option (Nat × SilverClinicalEntity)) (cs : List Char) :
    List SilverClinicalEntity :=
  scanGo m cs.length cs

/-- Number of matches of one rule over `cs` (same scan as `scanGo`,
counting instead of emitting). -/
def countGo (m : List Char → Option (Nat × SilverClinicalEntity)) :
    Nat → List Char → Nat
  | 0, _ => 0
  | _ + 1, [] => 0
  | fuel + 1, c :: cs =>
    match m (c :: cs) with
    | none => countGo m fuel cs
    | some (n, _) => countGo m fuel (cs.drop (n - 1)) + 1

/-- Number of matches of one rule over `cs`. -/
def countWith (m : List Char → Option (Nat × SilverClinicalEntity)) (cs : List Char) : Nat :=
  countGo m cs.length cs

/-! ### Extraction (`_extract_medications` / `_extract_diagnoses` /
`_extract_lab_values` / `bronze_to_silver_document`) -/

/-- `MedallionTransformer._extract_medications`: each pattern is scanned over
`text.lower()`, in pattern order. -/
def extract_medications (text : List Char) : List SilverClinicalEntity :=
  (medNames.map (fun nm => scanWith (medMatcher nm) (lowerStr text))).flatten

/-- `MedallionTransformer._extract_diagnoses`. -/
def extract_diagnoses (text : List Char) : List SilverClinicalEntity :=
  (diagRules.map (fun r => scanWith (diagMatcher r) (lowerStr text))).flatten

/-- `MedallionTransformer._extract_lab_values`. -/
def extract_lab_values (text : List Char) : List SilverClinicalEntity :=
  (labRules.map (fun r => scanWith (labMatcher r) (lowerStr text))).flatten

/-- `MedallionTransformer.bronze_to_silver_document`, as a function of the
document's `raw_content` (the only field it reads). -/
def bronze_to_silver_document (raw_content : String) : List SilverClinicalEntity :=
  extract_medications raw_content.data ++ extract_diagnoses raw_content.data ++
    extract_lab_values raw_content.data

/-- Total number of rule matches in a document (medication, diagnosis and
lab-value rules together). -/
def totalMatchCount (raw_content : String) : Nat :=
  (medNames.map (fun nm => countWith (medMatcher nm) (lowerStr raw_content.data))).sum +
  (diagRules.map (fun r => countWith (diagMatcher r) (lowerStr raw_content.data))).sum +
  (labRules.map (fun r => countWith (labMatcher r) (lowerStr raw_content.data))).sum

/-! ### Clinical assessments (`_assess_diabetes_control` / `_assess_renal_function`
/ `_assess_cardiac_risk`) -/

/-- `MedallionTransformer._assess_diabetes_control`: take the entities whose
`entity_value` contains `"hemoglobin_a1c"` (note: not filtered by entity type),
search the first entity's value for the first `\d+\.?\d*` token, and threshold
it at 7.0 and 8.0. A failed search (the `except` branch) yields "unknown". -/
def assess_diabetes_control (entities : List SilverClinicalEntity) : String :=
  match entities.filter (fun e => containsSub "hemoglobin_a1c".data e.entity_value.data) with
  | [] => "unknown"
  | e :: _ =>
    match searchFloat e.entity_value.data with
    | none => "unknown"
    | some a1c_value =>
      if a1c_value < 7 then "well_controlled"
      else if a1c_value < 8 then "moderately_controlled"
      else "poorly_controlled"

/-- `MedallionTransformer._assess_renal_function`: take the entities whose
`entity_value` contains `"egfr"`, search the first one's value for the first
`\d+` token, and threshold it at 90, 60 and 30. -/
def assess_renal_function (entities : List SilverClinicalEntity) : String :=
  match entities.filter (fun e => containsSub "egfr".data e.entity_value.data) with
  | [] => "unknown"
  | e :: _ =>
    match searchIntFloat e.entity_value.data with
    | none => "unknown"
    | some egfr_value =>
      if 90 ≤ egfr_value then "normal"
      else if 60 ≤ egfr_value then "mild_impairment"
      else if 30 ≤ egfr_value then "moderate_impairment"
      else "severe_impairment"

/-- `MedallionTransformer._assess_cardiac_risk`: count which of hypertension,
hyperlipidemia and diabetes occur as substrings of the lowercased value of some
diagnosis entity, and threshold the count at 3, 2 and 1. -/
def assess_cardiac_risk (entities : List SilverClinicalEntity) : String :=
  let hasDiag (needle : List Char) : Bool :=
    (entities.filter (fun e => e.entity_type == "diagnosis")).any
      (fun e => containsSub needle (lowerStr e.entity_value.data))
  let n : Nat :=
    (if hasDiag "hypertension".data then 1 else 0) +
    (if hasDiag "hyperlipidemia".data then 1 else 0) +
    (if hasDiag "diabetes".data then 1 else 0)
  if 3 ≤ n then "high"
  else if 2 ≤ n then "moderate"
  else if 1 ≤ n then "low"
  else "minimal"

/-! ### Gold layer: patient profile (class GoldPatientProfile) -/

/-- The `trial_eligibility_factors` dict (it always has exactly these three
keys, in this order). -/
structure EligibilityFactors where
  diabetes_controlled : String
  renal_function : String
  cardiac_risk : String
deriving Repr, DecidableEq

/-- `GoldPatientProfile` dataclass. `business_value` is the `_business_value`
attribute stamped at construction by the `gold_layer` wrapper from
`_calculate_business_value`. -/
structure GoldPatientProfile where
  patient_id : String
  age_years : Int
  sex : String
  primary_conditions : List String
  comorbidities : List String
  current_medications : List String
  contraindications : List String
  geographic_location : String
  trial_eligibility_factors : EligibilityFactors
  business_value : ℚ
deriving Repr, DecidableEq

/-- `GoldPatientProfile._calculate_business_value`, as a function of the
profile fields it reads. Each `bool(...)` is Python truthiness: list
non-empty, string non-empty, integer non-zero. -/
def calculate_business_value (primary_conditions comorbidities current_medications : List String)
    (geographic_location : String) (age_years : Int) (sex : String) : ℚ :=
  let completeness : ℚ :=
    (((if primary_conditions.isEmpty then 0 else 1) +
      (if current_medications.isEmpty then 0 else 1) +
      (if geographic_location == "" then 0 else 1) +
      (if age_years == 0 then 0 else 1) +
      (if sex == "" then 0 else 1) : ℚ)) / 5
  let richness : ℚ :=
    min ((primary_conditions.length : ℚ) * (2/10) + (comorbidities.length : ℚ) * (1/10) +
         (current_medications.length : ℚ) * (1/10)) 1
  completeness * (7/10) + richness * (3/10)

/-- The demographics record passed to aggregation (a Python dict read only via
`.get("age", 0)`, `.get("sex", "unknown")`, `.get("location", "unknown")`). -/
structure Demographics where
  age : Option Int
  sex : Option String
  location : Option String
deriving Repr, DecidableEq

/-- `MedallionTransformer.silver_to_gold_patient` (the returned profile; the
transformation-log append is modelled separately below). -/
def silver_to_gold_patient (patient_id : String) (entities : List SilverClinicalEntity)
    (demographics : Demographics) : GoldPatientProfile :=
  let medications :=
    (entities.filter (fun e => e.entity_type == "medication")).map (fun e => e.entity_value)
  let diagnoses :=
    (entities.filter (fun e => e.entity_type == "diagnosis")).map (fun e => e.entity_value)
  let primary_conditions := diagnoses.take 3
  let comorbidities := diagnoses.drop 3
  let contraindications :=
    (entities.filter (fun e => e.entity_type == "contraindication")).map (fun e => e.entity_value)
  let age_years := demographics.age.getD 0
  let sex := demographics.sex.getD "unknown"
  let geographic_location := demographics.location.getD "unknown"
  { patient_id := patient_id
    age_years := age_years
    sex := sex
    primary_conditions := primary_conditions
    comorbidities := comorbidities
    current_medications := medications
    contraindications := contraindications
    geographic_location := geographic_location
    trial_eligibility_factors :=
      ⟨assess_diabetes_control entities, assess_renal_function entities,
       assess_cardiac_risk entities⟩
    business_value :=
      calculate_business_value primary_conditions comorbidities medications
        geographic_location age_years sex }

/-! ### The transformation log (`_log_transformation`) and the stateful
aggregation entry point -/

/-- The `metric` field of a log entry (`len(entities)` or a business value). -/
inductive Metric where
  | count (n : Nat)
  | value (q : ℚ)
deriving Repr, DecidableEq

/-- One entry of `MedallionTransformer.transformation_log`. -/
structure LogEntry where
  timestamp : String
  stage : String
  entity_id : String
  metric : Metric
deriving Repr, DecidableEq

/-- `silver_to_gold_patient` including its `_log_transformation` side effect:
the transformer's mutable `transformation_log` is passed and returned
explicitly, and the wall-clock timestamp is an explicit input. -/
def silver_to_gold_patient_run (transformation_log : List LogEntry) (now : String)
    (patient_id : String) (entities : List SilverClinicalEntity)
    (demographics : Demographics) : List LogEntry × GoldPatientProfile :=
  let gold_profile := silver_to_gold_patient patient_id entities demographics
  (transformation_log ++
    [⟨now, "silver_to_gold", patient_id, Metric.value gold_profile.business_value⟩],
   gold_profile)

/-! ### Structured lab results (class SilverLabResult) -/

/-- `SilverLabResult` dataclass (the richer structured-lab record; its
numeric `value` may be a float or string and is never read by the scorer). -/
structure SilverLabResult where
  test_name : String
  value : String
  unit : Option String
  reference_range : Option String
  test_date : String
  abnormal_flag : Option String
  loinc_code : Option String
deriving Repr, DecidableEq

/-- Python truthiness of an `Optional[str]` field (`None` and `""` are falsy). -/
def truthyOptStr : Option String → Bool
  | none => false
  | some s => !(s == "")

/-- `SilverLabResult._calculate_quality_score`: base 0.6, +0.1 for unit,
+0.1 for reference range, +0.1 for abnormal flag, +0.2 for LOINC code.
Note the source applies no clamping. -/
def SilverLabResult.calculate_quality_score (r : SilverLabResult) : ℚ :=
  (6/10) + (if truthyOptStr r.unit then 1/10 else 0) +
    (if truthyOptStr r.reference_range then 1/10 else 0) +
    (if truthyOptStr r.abnormal_flag then 1/10 else 0) +
    (if truthyOptStr r.loinc_code then 2/10 else 0)

/-! ### Concrete inputs used by the scenario claims -/

/-- Scenario A document text (spec §8). -/
def scenarioA : String :=
  "Metformin 1000 mg BID, Lisinopril 10 mg daily. A1C: 8.2%, eGFR: 86, hypertension, type 2 diabetes."

/-- Demographics used with scenario A. -/
def demoA : Demographics := ⟨some 52, some "female", some "California"⟩

/-- Demographics of the empty-document scenario B:
`{age: 0, sex: "unknown", location: "unknown"}`. -/
def demoB : Demographics := ⟨some 0, some "unknown", some "unknown"⟩

/-- A lab entity exactly as the extractor produces it for `A1C: 8.2%`. -/
def a1cEntity : SilverClinicalEntity :=
  ⟨"lab_value", "hemoglobin_a1c: 8.2", mkRat 85 100, "a1c: 8.2%", some "4548-4", false⟩

/-! ### Helper lemmas -/

theorem ite_q_of_isEmpty (l : List String) :
    ((if l.isEmpty then 0 else 1 : ℚ)) = if l = [] then 0 else 1 := by
  cases l <;> simp

theorem ite_q_of_beq_str (s : String) :
    ((if s == "" then 0 else 1 : ℚ)) = if s = "" then 0 else 1 := by
  by_cases h : s = "" <;> simp [h]

theorem ite_q_of_beq_int (n : Int) :
    ((if n == 0 then 0 else 1 : ℚ)) = if n = 0 then 0 else 1 := by
  by_cases h : n = 0 <;> simp [h]

/-! ### C1 -/

/-- C1: the claim says the `diabetes_controlled` factor is determined by the
parsed numeric A1C value of the first A1C lab entity, with 8.2 falling in the
"poorly_controlled" band. The code instead feeds the whole entity value
`"hemoglobin_a1c: 8.2"` to `re.search(r"(\d+\.?\d*)")`, whose first match is
the digit `1` inside the label `hemoglobin_a1c`; the parsed value is 1, so the
assessment is "well_controlled" regardless of the measured A1C. -/
theorem C1_diabetes_control_parses_label_digit :
    searchFloat "hemoglobin_a1c: 8.2".data = some 1 ∧
    assess_diabetes_control [a1cEntity] = "well_controlled" ∧
    ("well_controlled" : String) ≠ "poorly_controlled" := by
  refine ⟨by decide, by decide, by decide⟩

/-! ### C2 -/

/-- C2 (counterexample): on scenario A, the eligibility factors are *not*
(moderately_controlled, normal, moderate) as claimed. -/
theorem C2_scenarioA_counterexample :
    ¬ ((silver_to_gold_patient "P001" (bronze_to_silver_document scenarioA) demoA).trial_eligibility_factors =
        ⟨"moderately_controlled", "normal", "moderate"⟩) := by
  decide

/-- C2 (amended): on scenario A the code produces
diabetes_controlled = "well_controlled" (the parser picks up the digit 1 of
the label `hemoglobin_a1c`), renal_function = "mild_impairment" (86 < 90), and
cardiac_risk = "moderate" (2 matched risk diagnoses). -/
theorem C2_scenarioA_factors :
    (silver_to_gold_patient "P001" (bronze_to_silver_document scenarioA) demoA).trial_eligibility_factors =
      ⟨"well_controlled", "mild_impairment", "moderate"⟩ := by
  decide

/-! ### C3 -/

/-- C3 (counterexample): a structured lab result with unit, reference range,
abnormal flag and LOINC code all present scores 0.6+0.1+0.1+0.1+0.2 = 1.1,
which is not ≤ 1 — the lab-result scorer applies no clamp. -/
theorem C3_lab_quality_exceeds_one :
    SilverLabResult.calculate_quality_score
        ⟨"hemoglobin_a1c", "8.2", some "%", some "4.0-5.6", "2024-01-01", some "H", some "4548-4"⟩ = 11/10 ∧
    ¬ (SilverLabResult.calculate_quality_score
        ⟨"hemoglobin_a1c", "8.2", some "%", some "4.0-5.6", "2024-01-01", some "H", some "4548-4"⟩ ≤ 1) := by
  constructor
  · show (6/10 : ℚ) + 1/10 + 1/10 + 1/10 + 2/10 = 11/10
    norm_num
  · show ¬ ((6/10 : ℚ) + 1/10 + 1/10 + 1/10 + 2/10 ≤ 1)
    norm_num

/-- C3 (amended): the structured-lab quality score always lies in
[0.6, 1.1] (not [0, 1]); it exceeds 1 exactly when all four of unit,
reference range, abnormal flag and coding are present (truthy). -/
theorem C3_lab_quality_bounds (r : SilverLabResult) :
    6/10 ≤ r.calculate_quality_score ∧ r.calculate_quality_score ≤ 11/10 ∧
    (1 < r.calculate_quality_score ↔
      (truthyOptStr r.unit = true ∧ truthyOptStr r.reference_range = true ∧
       truthyOptStr r.abnormal_flag = true ∧ truthyOptStr r.loinc_code = true)) := by
  unfold SilverLabResult.calculate_quality_score
  split_ifs with h1 h2 h3 h4 <;> simp_all <;> norm_num

/-! ### C4 -/

/-- C4 (counterexample): aggregating an empty entity list with demographics
`{age: 0, sex: "unknown", location: "unknown"}` yields business value
0.7·(2/5) = 7/25, not 0: `bool("unknown")` is true, so the "unknown"
location and sex each count toward completeness. -/
theorem C4_empty_profile_counterexample :
    (silver_to_gold_patient "P002" [] demoB).business_value = 7/25 ∧
    ¬ ((silver_to_gold_patient "P002" [] demoB).business_value = 0) := by
  have h : (silver_to_gold_patient "P002" [] demoB).business_value =
      calculate_business_value [] [] [] "unknown" 0 "unknown" := rfl
  have hv : calculate_business_value [] [] [] "unknown" 0 "unknown" = 7/25 := by
    unfold calculate_business_value
    simp
    norm_num
  rw [h, hv]
  norm_num

/-- C4 (amended): the completeness term counts Python truthiness — primary
conditions non-empty, medications non-empty, location a non-empty string
(so the literal string "unknown" counts), age non-zero (not necessarily
positive), sex a non-empty string — divided by 5; and the empty scenario B
profile has business value 7/25 (= 0.7·2/5), not 0. -/
theorem C4_business_value_formula :
    (∀ (pc co meds : List String) (loc : String) (age : Int) (sex : String),
      calculate_business_value pc co meds loc age sex =
        (((if pc = [] then 0 else 1) + (if meds = [] then 0 else 1) +
          (if loc = "" then 0 else 1) + (if age = 0 then 0 else 1) +
          (if sex = "" then 0 else 1) : ℚ)) / 5 * (7/10) +
        (min ((pc.length : ℚ) * (2/10) + (co.length : ℚ) * (1/10) +
          (meds.length : ℚ) * (1/10)) 1) * (3/10)) ∧
    (silver_to_gold_patient "P002" [] demoB).business_value = 7/25 := by
  constructor
  · intro pc co meds loc age sex
    unfold calculate_business_value
    rw [ite_q_of_isEmpty, ite_q_of_isEmpty, ite_q_of_beq_str, ite_q_of_beq_int, ite_q_of_beq_str]
  · have h : (silver_to_gold_patient "P002" [] demoB).business_value =
        calculate_business_value [] [] [] "unknown" 0 "unknown" := rfl
    rw [h]
    unfold calculate_business_value
    simp
    norm_num

/-! ### C5 -/

/-- C5: the aggregated profile's primary conditions are the first three
diagnosis values in extraction order, the comorbidities the rest, their
concatenation is the full diagnosis list, and there are at most three
primary conditions. -/
theorem C5_diagnosis_split (patient_id : String) (entities : List SilverClinicalEntity)
    (demographics : Demographics) :
    (silver_to_gold_patient patient_id entities demographics).primary_conditions =
      ((entities.filter (fun e => e.entity_type == "diagnosis")).map
        (fun e => e.entity_value)).take 3 ∧
    (silver_to_gold_patient patient_id entities demographics).comorbidities =
      ((entities.filter (fun e => e.entity_type == "diagnosis")).map
        (fun e => e.entity_value)).drop 3 ∧
    (silver_to_gold_patient patient_id entities demographics).primary_conditions ++
        (silver_to_gold_patient patient_id entities demographics).comorbidities =
      (entities.filter (fun e => e.entity_type == "diagnosis")).map (fun e => e.entity_value) ∧
    (silver_to_gold_patient patient_id entities demographics).primary_conditions.length ≤ 3 := by
  refine ⟨rfl, rfl, ?_, ?_⟩
  · exact List.take_append_drop 3 _
  · exact List.length_take_le 3 _

/-! ### C6 -/

/-- C6: aggregation is a pure function of (patient id, entities,
demographics): the profile of a second identical call — from the transformer
state the first call left behind, at any wall-clock time — is identical to the
first profile, and the profile never depends on the transformation log or on
the timestamp. -/
theorem C6_aggregate_pure (transformation_log : List LogEntry) (now now2 : String)
    (patient_id : String) (entities : List SilverClinicalEntity)
    (demographics : Demographics) :
    (silver_to_gold_patient_run
        ((silver_to_gold_patient_run transformation_log now patient_id entities demographics).1)
        now2 patient_id entities demographics).2 =
      (silver_to_gold_patient_run transformation_log now patient_id entities demographics).2 ∧
    (∀ (log2 : List LogEntry) (now3 : String),
      (silver_to_gold_patient_run log2 now3 patient_id entities demographics).2 =
        silver_to_gold_patient patient_id entities demographics) :=
  ⟨rfl, fun _ _ => rfl⟩

/-! ### Lemmas about the finditer scan -/

theorem scanGo_length (m : List Char → Option (Nat × SilverClinicalEntity)) :
    ∀ (fuel : Nat) (cs : List Char), (scanGo m fuel cs).length = countGo m fuel cs := by
  intro fuel
  induction fuel with
  | zero => intro cs; simp [scanGo, countGo]
  | succ k ih =>
    intro cs
    cases cs with
    | nil => simp [scanGo, countGo]
    | cons c cs2 =>
      rw [scanGo, countGo]
      cases hm : m (c :: cs2) with
      | none => simp [ih]
      | some p => simp [ih]

theorem scanWith_length (m : List Char → Option (Nat × SilverClinicalEntity)) (cs : List Char) :
    (scanWith m cs).length = countWith m cs :=
  scanGo_length m cs.length cs

/-- Every entity emitted by a scan comes from a successful application of the
position matcher to some suffix of the scanned text. -/
theorem scanGo_mem (m : List Char → Option (Nat × SilverClinicalEntity)) :
    ∀ (fuel : Nat) (cs : List Char), ∀ e ∈ scanGo m fuel cs,
      ∃ cs2 n, List.IsSuffix cs2 cs ∧ m cs2 = some (n, e) := by
  intro fuel
  induction fuel with
  | zero => intro cs e he; simp [scanGo] at he
  | succ k ih =>
    intro cs e he
    cases cs with
    | nil => simp [scanGo] at he
    | cons c cs2 =>
      rw [scanGo] at he
      cases hm : m (c :: cs2) with
      | none =>
        rw [hm] at he
        obtain ⟨cs3, n, hsuf, hmm⟩ := ih cs2 e he
        exact ⟨cs3, n, hsuf.trans (List.suffix_cons c cs2), hmm⟩
      | some p =>
        rw [hm] at he
        simp only [List.mem_cons] at he
        cases he with
        | inl hee =>
          subst hee
          exact ⟨c :: cs2, p.1, List.suffix_refl _, by rw [hm]⟩
        | inr hee =>
          obtain ⟨cs3, n, hsuf, hmm⟩ := ih (cs2.drop (p.1 - 1)) e hee
          exact ⟨cs3, n, hsuf.trans ((List.drop_suffix _ _).trans (List.suffix_cons c cs2)), hmm⟩

theorem scanWith_mem (m : List Char → Option (Nat × SilverClinicalEntity)) (cs : List Char)
    (e : SilverClinicalEntity) (he : e ∈ scanWith m cs) :
    ∃ cs2 n, List.IsSuffix cs2 cs ∧ m cs2 = some (n, e) :=
  scanGo_mem m cs.length cs e he

/-- A nonzero leading run means the first character satisfies the class. -/
theorem countWhile_pos {p : Char → Bool} {cs : List Char} (h : countWhile p cs ≠ 0) :
    ∃ c rest, cs = c :: rest ∧ p c = true := by
  cases cs with
  | nil => simp [countWhile] at h
  | cons c rest =>
    by_cases hp : p c = true
    · exact ⟨c, rest, rfl, hp⟩
    · simp [countWhile, List.takeWhile_cons, hp] at h

/-! ### C7 -/

/-- C7: extraction is a total function; on every input it returns exactly one
entity per rule match, so the entity count equals (hence never exceeds) the
total number of matches of known-term rules in the text; a text with no match
— in particular the empty document — yields the empty list. -/
theorem C7_extract_length (raw_content : String) :
    (bronze_to_silver_document raw_content).length = totalMatchCount raw_content ∧
    (totalMatchCount raw_content = 0 → bronze_to_silver_document raw_content = []) ∧
    bronze_to_silver_document "" = [] := by
  have hlen : (bronze_to_silver_document raw_content).length = totalMatchCount raw_content := by
    unfold bronze_to_silver_document totalMatchCount extract_medications extract_diagnoses
      extract_lab_values
    simp [List.length_append, List.length_flatten, List.map_map, Function.comp_def,
      scanWith_length]
    omega
  refine ⟨hlen, ?_, by decide⟩
  intro h0
  have : (bronze_to_silver_document raw_content).length = 0 := by rw [hlen, h0]
  exact List.length_eq_zero.mp this

/-- C7 witness: a term-free document has zero matches and extracts nothing. -/
theorem C7_witness : bronze_to_silver_document "hello world" = [] :=
  (C7_extract_length "hello world").2.1 (by decide)

/-! ### Shape of the entities each matcher can emit -/

theorem pstrip_subset (l : List Char) : ∀ c ∈ pstrip l, c ∈ l := by
  intro c hc
  unfold pstrip at hc
  rw [List.mem_reverse] at hc
  have h1 := (List.dropWhile_sublist (l := (l.dropWhile isWS).reverse) (p := isWS)).subset hc
  rw [List.mem_reverse] at h1
  exact (List.dropWhile_sublist (l := l) (p := isWS)).subset h1

theorem medMatcher_shape {name cs : List Char} {n : Nat} {e : SilverClinicalEntity}
    (h : medMatcher name cs = some (n, e)) :
    e.entity_type = "medication" ∧
    (∀ c ∈ e.extracted_from.data, c ∈ cs) ∧
    (∀ c ∈ e.entity_value.data, c ∈ name ∨ c = ' ' ∨ c ∈ cs) := by
  unfold medMatcher at h
  cases hm : matchMedAt name cs with
  | none => rw [hm] at h; exact absurd h (by simp)
  | some mm =>
    rw [hm] at h
    simp only [Option.some.injEq, Prod.mk.injEq] at h
    obtain ⟨_, he⟩ := h
    subst he
    refine ⟨rfl, ?_, ?_⟩
    · intro c hc
      exact List.take_subset _ _ hc
    · cases hd : mm.dos with
      | none =>
        intro c hc
        simp only [hd] at hc
        exact Or.inl hc
      | some dl =>
        intro c hc
        simp only [hd] at hc
        have hc2 := pstrip_subset _ _ hc
        rcases List.mem_append.mp hc2 with h1 | h1
        · exact Or.inl h1
        · rcases List.mem_cons.mp h1 with h2 | h2
          · exact Or.inr (Or.inl h2)
          · exact Or.inr (Or.inr (List.drop_subset _ _ (List.take_subset _ _ h2)))

theorem diagMatcher_shape {r : DiagRule} {cs : List Char} {n : Nat} {e : SilverClinicalEntity}
    (h : diagMatcher r cs = some (n, e)) :
    e.entity_type = "diagnosis" ∧ e.entity_value = r.standard_name ∧
    (∀ c ∈ e.extracted_from.data, c ∈ cs) := by
  unfold diagMatcher at h
  cases hm : matchWordsAt r.words cs with
  | none => rw [hm] at h; exact absurd h (by simp)
  | some k =>
    rw [hm] at h
    simp only [Option.some.injEq, Prod.mk.injEq] at h
    obtain ⟨_, he⟩ := h
    subst he
    exact ⟨rfl, rfl, fun c hc => List.take_subset _ _ hc⟩

theorem labMatcher_shape {r : LabRule} {cs : List Char} {n : Nat} {e : SilverClinicalEntity}
    (h : labMatcher r cs = some (n, e)) :
    e.entity_type = "lab_value" ∧
    (∀ c ∈ e.extracted_from.data, c ∈ cs) ∧
    (∀ c ∈ e.entity_value.data, c ∈ r.lab_name.data ∨ c = ':' ∨ c = ' ' ∨ c ∈ cs) := by
  unfold labMatcher at h
  cases hm : matchLabAt r cs with
  | none => rw [hm] at h; exact absurd h (by simp)
  | some m =>
    rw [hm] at h
    simp only [Option.some.injEq, Prod.mk.injEq] at h
    obtain ⟨_, he⟩ := h
    subst he
    refine ⟨rfl, fun c hc => List.take_subset _ _ hc, ?_⟩
    intro c hc
    rcases List.mem_append.mp hc with h1 | h1
    · exact Or.inl h1
    · rcases List.mem_cons.mp h1 with h2 | h2
      · exact Or.inr (Or.inl h2)
      · rcases List.mem_cons.mp h2 with h3 | h3
        · exact Or.inr (Or.inr (Or.inl h3))
        · exact Or.inr (Or.inr (Or.inr (List.drop_subset _ _ (List.take_subset _ _ h3))))

/-- Every extracted entity is produced by one of the three rule families,
applied to some suffix of the lowercased document text. -/
theorem extract_mem {t : String} {e : SilverClinicalEntity}
    (he : e ∈ bronze_to_silver_document t) :
    (∃ nm ∈ medNames, ∃ cs2 n, List.IsSuffix cs2 (lowerStr t.data) ∧
        medMatcher nm cs2 = some (n, e)) ∨
    (∃ r ∈ diagRules, ∃ cs2 n, List.IsSuffix cs2 (lowerStr t.data) ∧
        diagMatcher r cs2 = some (n, e)) ∨
    (∃ r ∈ labRules, ∃ cs2 n, List.IsSuffix cs2 (lowerStr t.data) ∧
        labMatcher r cs2 = some (n, e)) := by
  unfold bronze_to_silver_document extract_medications extract_diagnoses extract_lab_values at he
  rcases List.mem_append.mp he with h | hlab
  · rcases List.mem_append.mp h with hmed | hdiag
    · left
      obtain ⟨l, hl, hel⟩ := List.mem_flatten.mp hmed
      obtain ⟨nm, hnm, hleq⟩ := List.mem_map.mp hl
      subst hleq
      obtain ⟨cs2, n, hsuf, hmm⟩ := scanWith_mem _ _ _ hel
      exact ⟨nm, hnm, cs2, n, hsuf, hmm⟩
    · right; left
      obtain ⟨l, hl, hel⟩ := List.mem_flatten.mp hdiag
      obtain ⟨r, hr, hleq⟩ := List.mem_map.mp hl
      subst hleq
      obtain ⟨cs2, n, hsuf, hmm⟩ := scanWith_mem _ _ _ hel
      exact ⟨r, hr, cs2, n, hsuf, hmm⟩
  · right; right
    obtain ⟨l, hl, hel⟩ := List.mem_flatten.mp hlab
    obtain ⟨r, hr, hleq⟩ := List.mem_map.mp hl
    subst hleq
    obtain ⟨cs2, n, hsuf, hmm⟩ := scanWith_mem _ _ _ hel
    exact ⟨r, hr, cs2, n, hsuf, hmm⟩

/-! ### C8 -/

/-- C8: every extracted entity has type medication, diagnosis or lab_value —
never contraindication — so the contraindications list of any profile
aggregated from extracted entities is empty. -/
theorem C8_entity_types (raw_content : String) (patient_id : String)
    (demographics : Demographics) :
    (∀ e ∈ bronze_to_silver_document raw_content,
      e.entity_type = "medication" ∨ e.entity_type = "diagnosis" ∨
        e.entity_type = "lab_value") ∧
    (silver_to_gold_patient patient_id (bronze_to_silver_document raw_content)
        demographics).contraindications = [] := by
  have htypes : ∀ e ∈ bronze_to_silver_document raw_content,
      e.entity_type = "medication" ∨ e.entity_type = "diagnosis" ∨
        e.entity_type = "lab_value" := by
    intro e he
    rcases extract_mem he with ⟨nm, _, cs2, n, _, hm⟩ | ⟨r, _, cs2, n, _, hm⟩ |
      ⟨r, _, cs2, n, _, hm⟩
    · exact Or.inl (medMatcher_shape hm).1
    · exact Or.inr (Or.inl (diagMatcher_shape hm).1)
    · exact Or.inr (Or.inr (labMatcher_shape hm).1)
  refine ⟨htypes, ?_⟩
  show ((bronze_to_silver_document raw_content).filter
      (fun e => e.entity_type == "contraindication")).map (fun e => e.entity_value) = []
  have hfil : (bronze_to_silver_document raw_content).filter
      (fun e => e.entity_type == "contraindication") = [] := by
    rw [List.filter_eq_nil_iff]
    intro a ha
    rcases htypes a ha with h | h | h <;> simp [h]
  rw [hfil]
  rfl

/-- C8 witness: the single entity extracted from "obesity" has an allowed
entity type. -/
theorem C8_witness :
    (⟨"diagnosis", "Obesity", mkRat 95 100, "obesity", some "E66.9", false⟩ :
        SilverClinicalEntity).entity_type = "medication" ∨
    (⟨"diagnosis", "Obesity", mkRat 95 100, "obesity", some "E66.9", false⟩ :
        SilverClinicalEntity).entity_type = "diagnosis" ∨
    (⟨"diagnosis", "Obesity", mkRat 95 100, "obesity", some "E66.9", false⟩ :
        SilverClinicalEntity).entity_type = "lab_value" :=
  (C8_entity_types "obesity" "P003" ⟨none, none, none⟩).1 _ (by decide)

/-! ### Case lowering lemmas for C9 -/

theorem toNat_lowerChar (c : Char) :
    (lowerChar c).toNat = if 65 ≤ c.toNat ∧ c.toNat ≤ 90 then c.toNat + 32 else c.toNat := by
  unfold lowerChar
  split <;> rfl

theorem lowerChar_not_upper (c : Char) : isUpperCh (lowerChar c) = false := by
  have h := toNat_lowerChar c
  unfold isUpperCh
  by_cases hc : 65 ≤ c.toNat ∧ c.toNat ≤ 90
  · rw [if_pos hc] at h
    rw [h]
    simp only [Bool.and_eq_false_iff, decide_eq_false_iff_not]
    omega
  · rw [if_neg hc] at h
    rw [h]
    simp only [Bool.and_eq_false_iff, decide_eq_false_iff_not]
    omega

theorem lowerChar_eq_self {c : Char} (hc : ¬ (65 ≤ c.toNat ∧ c.toNat ≤ 90)) :
    lowerChar c = c := by
  unfold lowerChar
  rw [dif_neg hc]

theorem lowerChar_idem (c : Char) : lowerChar (lowerChar c) = lowerChar c := by
  by_cases hc : 65 ≤ c.toNat ∧ c.toNat ≤ 90
  · have h := toNat_lowerChar c
    rw [if_pos hc] at h
    exact lowerChar_eq_self (by rw [h]; omega)
  · rw [lowerChar_eq_self hc, lowerChar_eq_self hc]

theorem lowerStr_idem (l : List Char) : lowerStr (lowerStr l) = lowerStr l := by
  unfold lowerStr
  rw [List.map_map]
  exact List.map_congr_left (fun a _ => lowerChar_idem a)

theorem lowerStr_not_upper {l : List Char} {c : Char} (hc : c ∈ lowerStr l) :
    isUpperCh c = false := by
  obtain ⟨d, _, hd⟩ := List.mem_map.mp hc
  rw [← hd]
  exact lowerChar_not_upper d

theorem medNames_lower : ∀ nm ∈ medNames, ∀ c ∈ nm, isUpperCh c = false := by decide

theorem labRules_lower : ∀ r ∈ labRules, ∀ c ∈ r.lab_name.data, isUpperCh c = false := by decide

/-! ### C9 -/

/-- C9: extraction is invariant under letter case of the input — it equals
extraction of the lowercased text, and any two documents with the same
lowercasing extract identical entity lists — and every entity's
`extracted_from`, as well as the `entity_value` of medication and lab
entities, contains no uppercase letter (diagnosis values are fixed canonical
names and are exempt). -/
theorem C9_case_invariance (t : String) :
    bronze_to_silver_document (String.mk (lowerStr t.data)) = bronze_to_silver_document t ∧
    (∀ (t2 : String), lowerStr t.data = lowerStr t2.data →
      bronze_to_silver_document t = bronze_to_silver_document t2) ∧
    (∀ e ∈ bronze_to_silver_document t,
      (∀ c ∈ e.extracted_from.data, isUpperCh c = false) ∧
      ((e.entity_type = "medication" ∨ e.entity_type = "lab_value") →
        ∀ c ∈ e.entity_value.data, isUpperCh c = false)) := by
  refine ⟨?_, ?_, ?_⟩
  · unfold bronze_to_silver_document extract_medications extract_diagnoses extract_lab_values
    rw [show (String.mk (lowerStr t.data)).data = lowerStr t.data from rfl, lowerStr_idem]
  · intro t2 h
    unfold bronze_to_silver_document extract_medications extract_diagnoses extract_lab_values
    rw [h]
  · intro e he
    rcases extract_mem he with ⟨nm, hnm, cs2, n, hsuf, hm⟩ | ⟨r, hr, cs2, n, hsuf, hm⟩ |
      ⟨r, hr, cs2, n, hsuf, hm⟩
    · obtain ⟨hty, hext, hval⟩ := medMatcher_shape hm
      refine ⟨fun c hc => lowerStr_not_upper (hsuf.subset (hext c hc)), fun _ c hc => ?_⟩
      rcases hval c hc with h1 | h1 | h1
      · exact medNames_lower nm hnm c h1
      · rw [h1]; decide
      · exact lowerStr_not_upper (hsuf.subset h1)
    · obtain ⟨hty, _, hext⟩ := diagMatcher_shape hm
      refine ⟨fun c hc => lowerStr_not_upper (hsuf.subset (hext c hc)), fun hcontra => ?_⟩
      rw [hty] at hcontra
      rcases hcontra with h1 | h1 <;> exact absurd h1 (by decide)
    · obtain ⟨hty, hext, hval⟩ := labMatcher_shape hm
      refine ⟨fun c hc => lowerStr_not_upper (hsuf.subset (hext c hc)), fun _ c hc => ?_⟩
      rcases hval c hc with h1 | h1 | h1 | h1
      · exact labRules_lower r hr c h1
      · rw [h1]; decide
      · rw [h1]; decide
      · exact lowerStr_not_upper (hsuf.subset h1)

/-- C9 witness: a document differing from "a1c: 8.2%" only in letter case
extracts the same entities. -/
theorem C9_witness :
    bronze_to_silver_document "A1C: 8.2%" = bronze_to_silver_document "a1c: 8.2%" :=
  (C9_case_invariance "A1C: 8.2%").2.1 "a1c: 8.2%" (by decide)

/-! ### C10 -/

/-- C10: every medication pattern demands at least one `\s` character directly
after the medication name (`\s+` before the optional dosage group), so a name
followed by punctuation or end-of-text yields no match: "metformin." and a
document ending in "metformin" extract nothing, while "metformin 500 mg"
yields a medication entity. -/
theorem C10_med_requires_whitespace :
    (∀ (name cs : List Char) (m : MedMatch), name ∈ medNames →
      matchMedAt name cs = some m →
      ∃ c rest, cs.drop name.length = c :: rest ∧ isWS c = true) ∧
    bronze_to_silver_document "metformin." = [] ∧
    bronze_to_silver_document "Take metformin" = [] ∧
    (bronze_to_silver_document "metformin 500 mg").map (fun e => e.entity_value) =
      ["metformin 500 mg"] := by
  refine ⟨?_, by decide, by decide, by decide⟩
  intro name cs m _ h
  unfold matchMedAt at h
  by_cases hl : leadsWith name cs = true
  · rw [if_pos hl] at h
    by_cases hw : (countWhile isWS (cs.drop name.length) == 0) = true
    · rw [if_pos hw] at h
      exact absurd h (by simp)
    · have : countWhile isWS (cs.drop name.length) ≠ 0 := by
        intro hz
        exact hw (by simp [hz])
      exact countWhile_pos this
  · rw [if_neg hl] at h
    exact absurd h (by simp)

/-- C10 witness: instantiating the whitespace requirement on a concrete
match of "metformin 5 mg". -/
theorem C10_witness :
    ∃ c rest, ("metformin 5 mg".data).drop ("metformin".data).length = c :: rest ∧
      isWS c = true :=
  C10_med_requires_whitespace.1 "metformin".data "metformin 5 mg".data ⟨1, some 4⟩
    (by decide) (by decide)

end Medallion
